import Mathlib

/-!
Verification of the Deep Research Agentic System's orchestration engine
(`src/main.py`) against its natural-language specification.

The Python code is shallowly embedded: strings are `List Char`, Python floats
used for scores/times are exact rationals `ℚ`, fallible async operations are
`Except` values or oracle functions, and in-place mutation of `Citation`
objects is modelled with an explicit store in the aliasing section.
-/

namespace DeepResearch

/-- Python strings are embedded as lists of characters. -/
abbrev Chars := List Char

/-- Coerce a Lean string literal to the embedding type. -/
def str (s : String) : Chars := s.data

/-- Python `s.lower()` (character-wise lowering, as CPython does for ASCII). -/
def lowerChars (s : Chars) : Chars := s.map Char.toLower

/-- Is `pat` a prefix of `s`?  (Helper for the substring test.) -/
def isPrefixL : Chars → Chars → Bool
  | [], _ => true
  | _ :: _, [] => false
  | a :: as, b :: bs => a == b && isPrefixL as bs

/-- Python `pat in s`: `pat` occurs contiguously inside `s`. -/
def containsSub (s pat : Chars) : Bool :=
  match s with
  | [] => pat.isEmpty
  | _ :: rest => isPrefixL pat s || containsSub rest pat

/-- Decimal rendering of a natural number (Python `str(n)` / `{n}`). -/
def natChars (n : Nat) : Chars := (Nat.repr n).data

/- ===================================================================
   C1 — `LeadResearchAgent._retry_with_backoff` (src/main.py:850-864)

   The loop `for attempt in range(max_retries)` calls the operation; a
   failure whose message contains "500", "INTERNAL" or "429" is retried
   (after a sleep, which is timing-only and not modelled) while
   `attempt < max_retries - 1`, otherwise `raise e` re-raises the original
   exception.  The final `raise Exception(f"Failed after {max_retries}
   attempts")` is only reached when the loop body never runs.
   =================================================================== -/

/-- Transient-failure test of `_retry_with_backoff`:
`"500" in str(e) or "INTERNAL" in str(e) or "429" in str(e)`. -/
def isTransientMsg (m : Chars) : Bool :=
  containsSub m (str "500") || containsSub m (str "INTERNAL") || containsSub m (str "429")

/-- Outcome of `_retry_with_backoff`: a returned value, a re-raised
original exception (`raise e`), or the final
`Exception(f"Failed after {max_retries} attempts")`. -/
inductive RetryOutcome (α : Type) where
  | ok : α → RetryOutcome α
  | raised : Chars → RetryOutcome α
  | failedAfter : Nat → RetryOutcome α
deriving DecidableEq

/-- The retry loop.  `remaining` is the number of iterations left in
`range(max_retries)` and `attempt` the current 0-based loop index; the
second component of the result counts how many times the operation was
called.  The operation is an oracle from the attempt number to its result. -/
def retryGo {α : Type} (f : Nat → Except Chars α) (maxRetries : Nat) :
    Nat → Nat → RetryOutcome α × Nat
  | 0, attempt => (RetryOutcome.failedAfter maxRetries, attempt)
  | remaining + 1, attempt =>
    match f attempt with
    | Except.ok a => (RetryOutcome.ok a, attempt + 1)
    | Except.error e =>
      if isTransientMsg e ∧ attempt < maxRetries - 1 then
        retryGo f maxRetries remaining (attempt + 1)
      else
        (RetryOutcome.raised e, attempt + 1)

/-- `_retry_with_backoff(func, max_retries)`, with the backoff sleeps
(timing only) elided. -/
def retryWithBackoff {α : Type} (f : Nat → Except Chars α) (maxRetries : Nat) :
    RetryOutcome α × Nat :=
  retryGo f maxRetries maxRetries 0

/-- Claim C1 (code bug): on an operation that always raises a transient
"500" failure, `_retry_with_backoff` with `max_retries = 3` makes exactly
3 attempts but then re-raises the *original* transient exception — not a
distinct "exhausted retries" failure carrying the attempt count, which the
claim (and the dead `raise Exception(f"Failed after {max_retries}
attempts")` line) require.  On a fatal (non-transient) failure it makes
exactly 1 attempt and propagates that failure immediately, as claimed. -/
theorem C1_retry_behaviour :
    retryWithBackoff (fun _ => (Except.error (str "HTTP 500 Server Error") : Except Chars Unit)) 3
      = (RetryOutcome.raised (str "HTTP 500 Server Error"), 3) ∧
    retryWithBackoff (fun _ => (Except.error (str "invalid request payload") : Except Chars Unit)) 3
      = (RetryOutcome.raised (str "invalid request payload"), 1) := by
  constructor <;> rfl

/- ===================================================================
   C8 — `LeadResearchAgent._rate_limit` (src/main.py:893-904)

   `current_time = time.time(); if current_time - last < delay: sleep
   (delay - (current_time - last)); last = time.time()`.  Time is modelled
   by exact rationals; `asyncio.sleep` is ideal (wakes exactly after the
   requested amount), so the call returns at `now + (delay - (now - last))`
   when it slept and at `now` otherwise, and `last_api_call` is set to that
   return time.
   =================================================================== -/

/-- Completion time of one `_rate_limit()` call entered at wall-clock time
`now` with shared cursor `last`; the cursor is then advanced to this time. -/
def rateLimitCall (delay last now : ℚ) : ℚ :=
  if now - last < delay then now + (delay - (now - last)) else now

/-- Completion times of a sequence of `_rate_limit()` calls: the first is
entered at time `now`; after each call the next is entered `g` seconds
after the previous one returned, where `g` ranges over `gaps`
(the caller's own think-time, one gap per remaining call). -/
def acquireSeq (delay : ℚ) : ℚ → ℚ → List ℚ → List ℚ
  | last, now, [] => [rateLimitCall delay last now]
  | last, now, g :: gs =>
    rateLimitCall delay last now ::
      acquireSeq delay (rateLimitCall delay last now) (rateLimitCall delay last now + g) gs

/-- `gaps.length + 1` sequential `_rate_limit()` calls starting at time
`t0`, with the shared cursor initialised to `0` (`self.last_api_call = 0`). -/
def acquireTimes (delay t0 : ℚ) (gaps : List ℚ) : List ℚ :=
  acquireSeq delay 0 t0 gaps

theorem rateLimitCall_ge_last (d l n : ℚ) : l + d ≤ rateLimitCall d l n := by
  unfold rateLimitCall
  split_ifs with h
  · linarith
  · linarith

theorem rateLimitCall_ge_now (d l n : ℚ) : n ≤ rateLimitCall d l n := by
  unfold rateLimitCall
  split_ifs with h
  · linarith
  · linarith

theorem acquireSeq_cons (delay last now : ℚ) (gaps : List ℚ) :
    ∃ tl, acquireSeq delay last now gaps = rateLimitCall delay last now :: tl := by
  cases gaps with
  | nil => exact ⟨[], rfl⟩
  | cons g gs => exact ⟨_, rfl⟩

theorem acquireSeq_spec (delay : ℚ) (gaps : List ℚ) :
    ∀ last now : ℚ,
      (acquireSeq delay last now gaps).length = gaps.length + 1 ∧
      (acquireSeq delay last now gaps).Chain' (fun a b => a + delay ≤ b) ∧
      ∀ x, (acquireSeq delay last now gaps).getLast? = some x →
        rateLimitCall delay last now + (gaps.length : ℚ) * delay ≤ x := by
  induction gaps with
  | nil =>
    intro last now
    refine ⟨rfl, List.chain'_singleton _, ?_⟩
    intro x hx
    simp only [acquireSeq, List.getLast?_singleton, Option.some.injEq] at hx
    subst hx
    simp
  | cons g gs ih =>
    intro last now
    obtain ⟨len_ih, chain_ih, last_ih⟩ :=
      ih (rateLimitCall delay last now) (rateLimitCall delay last now + g)
    obtain ⟨tl, htl⟩ :=
      acquireSeq_cons delay (rateLimitCall delay last now) (rateLimitCall delay last now + g) gs
    refine ⟨by simpa [acquireSeq] using len_ih, ?_, ?_⟩
    · show List.Chain' _ (_ :: acquireSeq delay _ _ gs)
      rw [htl]
      exact List.Chain'.cons (by rw [← htl] at *; exact rateLimitCall_ge_last _ _ _)
        (htl ▸ chain_ih)
    · intro x hx
      have hne : acquireSeq delay (rateLimitCall delay last now)
          (rateLimitCall delay last now + g) gs ≠ [] := by
        rw [htl]; exact List.cons_ne_nil _ _
      have : (acquireSeq delay last now (g :: gs)).getLast? =
          (acquireSeq delay (rateLimitCall delay last now)
            (rateLimitCall delay last now + g) gs).getLast? := by
        show (_ :: acquireSeq delay _ _ gs).getLast? = _
        rw [htl]
        simp
      rw [this] at hx
      have hstep := last_ih x hx
      have hgrow := rateLimitCall_ge_last delay (rateLimitCall delay last now)
        (rateLimitCall delay last now + g)
      have hlen : ((g :: gs).length : ℚ) = (gs.length : ℚ) + 1 := by
        push_cast [List.length_cons]; ring
      rw [hlen]
      nlinarith [hstep, hgrow]

/-- Claim C8: `N` sequential `_rate_limit()` calls (here `N = gaps.length
+ 1`) all complete, consecutive completions are at least `delay` seconds
apart (no two calls proceed within `delay` of each other on the single
shared cursor), and the last call completes at least `(N-1) * delay`
after the wall-clock start `t0` of the first call, i.e. the run takes at
least `(N-1) * delay` total elapsed time. -/
theorem C8_rate_limit_spacing (delay t0 : ℚ) (gaps : List ℚ) :
    (acquireTimes delay t0 gaps).length = gaps.length + 1 ∧
    (acquireTimes delay t0 gaps).Chain' (fun a b => a + delay ≤ b) ∧
    ∀ x, (acquireTimes delay t0 gaps).getLast? = some x →
      t0 + (gaps.length : ℚ) * delay ≤ x := by
  obtain ⟨hlen, hchain, hlast⟩ := acquireSeq_spec delay gaps 0 t0
  refine ⟨hlen, hchain, ?_⟩
  intro x hx
  have h1 := hlast x hx
  have h2 := rateLimitCall_ge_now delay 0 t0
  linarith

/-- Witness for C8 at `delay = 7`, `t0 = 100`, two follow-up calls with
zero think-time: completions are `[100, 107, 114]` and the elapsed time
is `14 = (3-1) * 7`. -/
theorem C8_rate_limit_spacing_witness :
    (acquireTimes 7 100 [0, 0]).getLast? = some 114 ∧
    (100 : ℚ) + (([(0 : ℚ), 0] : List ℚ).length : ℚ) * 7 ≤ 114 := by
  have e1 : rateLimitCall 7 0 100 = 100 := by unfold rateLimitCall; norm_num
  have e2 : rateLimitCall 7 100 100 = 107 := by unfold rateLimitCall; norm_num
  have e3 : rateLimitCall 7 107 107 = 114 := by unfold rateLimitCall; norm_num
  have hlast : (acquireTimes 7 100 [0, 0]).getLast? = some 114 := by
    simp [acquireTimes, acquireSeq, e1, e2, e3]
  exact ⟨hlast, (C8_rate_limit_spacing 7 100 [0, 0]).2.2 114 hlast⟩

/- ===================================================================
   Python string helpers used by `SearchAgent._extract_sources`.
   =================================================================== -/

/-- First occurrence split: `some (before, after)` where `before` is the text
before the first occurrence of `sep` and `after` the text following it. -/
def splitFirstOcc (sep : Chars) : Chars → Option (Chars × Chars)
  | [] => none
  | c :: rest =>
    if isPrefixL sep (c :: rest) then some ([], (c :: rest).drop sep.length)
    else
      match splitFirstOcc sep rest with
      | some (pre, post) => some (c :: pre, post)
      | none => none

/-- Fuelled worker for `pySplit`; for a nonempty separator each step strips
at least one character, so fuel `s.length + 1` makes it exact. -/
def pySplitGo (sep : Chars) : Nat → Chars → List Chars
  | 0, s => [s]
  | fuel + 1, s =>
    match splitFirstOcc sep s with
    | none => [s]
    | some (pre, post) => pre :: pySplitGo sep fuel post

/-- Python `s.split(sep)` for a nonempty separator. -/
def pySplit (sep s : Chars) : List Chars := pySplitGo sep (s.length + 1) s

/-- Python `s.split(sep, 1)[1]` under the guarantee that `sep` occurs in `s`
(the remainder after the first occurrence; `s` itself when `sep` is absent,
which is unreachable at the call site). -/
def splitRemainder (sep s : Chars) : Chars :=
  match splitFirstOcc sep s with
  | some (_, post) => post
  | none => s

/-- Python `parts[n]` on a split result, guarded at every call site so that
the index exists (an out-of-range index would raise and be swallowed by the
per-line `except`, which is unreachable given the guards). -/
def pyIdx (l : List Chars) (n : Nat) : Chars := l.getD n []

/-- Python `s.strip()`. -/
def pyStrip (s : Chars) : Chars :=
  ((s.dropWhile Char.isWhitespace).reverse.dropWhile Char.isWhitespace).reverse

/-- Python `s.rstrip('*')`. -/
def rstripStar (s : Chars) : Chars := (s.reverse.dropWhile (· == '*')).reverse

/-- Python `s.strip('*')`. -/
def stripStar (s : Chars) : Chars :=
  ((s.dropWhile (· == '*')).reverse.dropWhile (· == '*')).reverse

/-- Python `s.startswith(pat)`. -/
def startsWithL (pat s : Chars) : Bool := isPrefixL pat s

/-- Python `s.endswith(pat)`. -/
def endsWithL (pat s : Chars) : Bool := isPrefixL pat.reverse s.reverse

/-- Python `s.find(pat)` (`none` for `-1`). -/
def pyFind (pat : Chars) : Chars → Option Nat
  | [] => if pat.isEmpty then some 0 else none
  | c :: rest =>
    if isPrefixL pat (c :: rest) then some 0
    else (pyFind pat rest).map (· + 1)

/- ===================================================================
   Data model: the `Citation` dataclass (src/main.py:34-50).
   =================================================================== -/

/-- The `Citation` dataclass, with its Python field defaults. -/
structure Citation where
  id : Nat
  title : Chars
  url : Chars
  source_type : Chars
  publication_date : Option Chars := none
  author : Option Chars := none
  domain : Option Chars := none
  doi : Option Chars := none
  reliability_score : ℚ := 0
  quality_score : ℚ := 0.5
deriving DecidableEq

instance : Inhabited Citation :=
  ⟨{ id := 0, title := [], url := [], source_type := [] }⟩

/-- Python truthiness fallback `x or default` for optional strings
(`None` and the empty string both fall back). -/
def pyOr (o : Option Chars) (d : Chars) : Chars :=
  match o with
  | some s => if s = [] then d else s
  | none => d

/-- `Citation.to_apa_format` (src/main.py:48-50). -/
def toApaFormat (c : Citation) : Chars :=
  pyOr c.author (str "Unknown") ++ str " (" ++ pyOr c.publication_date (str "n.d.") ++
    str "). " ++ c.title ++ str ". Retrieved from " ++ c.url

/- ===================================================================
   C5 / C7 — `SearchAgent._assess_source_quality` (src/main.py:495-521),
   `_determine_source_type` (523-534) and `_extract_sources` (427-493).
   =================================================================== -/

/-- `_assess_source_quality`: base score 0.5, one first-match domain
adjustment, at most one first-match title adjustment, clamped to [0, 1]. -/
def assessSourceQuality (url title : Chars) : ℚ :=
  max 0 (min 1
    ((if containsSub url (str ".edu") || containsSub url (str ".ac.") then (0.5 : ℚ) + 0.3
      else if containsSub url (str ".gov") then 0.5 + 0.25
      else if containsSub url (str ".org") then 0.5 + 0.15
      else if containsSub url (str ".com") then 0.5 + 0.05
      else 0.5 - 0.1)
     +
     (if containsSub (lowerChars title) (str "study") ||
         containsSub (lowerChars title) (str "research") ||
         containsSub (lowerChars title) (str "analysis") ||
         containsSub (lowerChars title) (str "report") ||
         containsSub (lowerChars title) (str "journal") then (0.2 : ℚ)
      else if containsSub (lowerChars title) (str "news") ||
              containsSub (lowerChars title) (str "article") ||
              containsSub (lowerChars title) (str "blog") then 0.1
      else if containsSub (lowerChars title) (str "opinion") ||
              containsSub (lowerChars title) (str "editorial") ||
              containsSub (lowerChars title) (str "commentary") then -0.1
      else 0)))

/-- `_determine_source_type`. -/
def determineSourceType (url : Chars) : Chars :=
  if containsSub url (str ".edu") || containsSub url (str ".ac.") then str "academic"
  else if containsSub url (str ".gov") then str "government"
  else if containsSub url (str ".org") then str "organization"
  else if containsSub url (str ".com") then str "commercial"
  else str "web"

/-- Branch 1 title recovery of `_extract_sources`: scan the up-to-3
preceding lines (in order) for a fully `**`-wrapped line, or a line
containing `**` and a digit (numbered heading, `"N. "` prefix stripped);
default `"Unknown Title"`. -/
def extractTitleAttributed : List Chars → Chars
  | [] => str "Unknown Title"
  | l :: rest =>
    if startsWithL (str "**") l && endsWithL (str "**") l then stripStar l
    else if containsSub l (str "**") && l.any Char.isDigit then
      let t := pyStrip (stripStar l)
      if t ≠ [] ∧ (t.headD ' ').isDigit ∧ containsSub t (str ". ") = true then
        splitRemainder (str ". ") t
      else t
    else extractTitleAttributed rest

/-- Branch 3 title recovery: nearest previous nonblank line not starting
with `*` among the 2 preceding lines; default `"Search Result"`. -/
def extractTitleFallback : List Chars → Chars
  | [] => str "Search Result"
  | l :: rest =>
    if pyStrip l ≠ [] ∧ startsWithL (str "*") l = false then pyStrip l
    else extractTitleFallback rest

/-- Per-line recognition of `_extract_sources` for a line containing
"http": the three patterns tried in order (attributed `*Source:` marker,
bracketed title, raw-URL fallback), returning `(title, url)` before the
final `http` re-prefixing.  `prevRev` holds the preceding lines, nearest
first. -/
def parseSourceLine (prevRev : List Chars) (line : Chars) : Chars × Chars :=
  if containsSub line (str "*Source:") then
    (extractTitleAttributed (prevRev.take 3).reverse,
     rstripStar (pyStrip (pyIdx (pySplit (str "*Source:") line) 1)))
  else if containsSub line (str "[") && containsSub line (str "]") then
    let title := pyIdx (pySplit (str "]") (pyIdx (pySplit (str "[") line) 1)) 0
    let url0 := pyIdx (pySplit (str " ") (pyIdx (pySplit (str "http") line) 1)) 0
    (title, if startsWithL (str "http") url0 then url0 else str "http" ++ url0)
  else
    match pyFind (str "http") line with
    | some k =>
      (extractTitleFallback (prevRev.take 2).reverse,
       pyIdx (pySplit (str "\n") (pyIdx (pySplit (str " ") (line.drop k)) 0)) 0)
    | none => (str "Search Result", [])

/-- The `Citation(...)` constructed for each recognized line
(src/main.py:481-488). -/
def mkExtractedSource (numBefore : Nat) (title url : Chars) : Citation :=
  { id := numBefore + 1
    title := title
    url := url
    source_type := determineSourceType url
    reliability_score := 0.8
    quality_score := assessSourceQuality url title }

/-- Main loop of `_extract_sources` over the lines, carrying the already
preceding lines (nearest first) and the sources accumulated so far (most
recent first; reversed at the end).  The per-line `try/except` is not
modelled because every branch is guarded and total here. -/
def extractSourcesGo : List Chars → List Chars → List Citation → List Citation
  | _, [], acc => acc.reverse
  | prevRev, line :: more, acc =>
    extractSourcesGo (line :: prevRev) more
      (if containsSub line (str "http") then
        (let p := parseSourceLine prevRev line
         mkExtractedSource acc.length p.1
           (if startsWithL (str "http") p.2 then p.2 else str "http" ++ p.2)) :: acc
      else acc)

/-- `SearchAgent._extract_sources(content)`. -/
def extractSources (content : Chars) : List Citation :=
  extractSourcesGo [] (pySplit (str "\n") content) []

/-- Claim C5: with an academic URL marker and a title containing
"research" (case-insensitively, as the code lowers the title), the score
is `min 1 (0.5 + 0.3 + 0.2) = 1` and the source kind is "academic"; with
a commercial URL marker as the first-matching domain marker and "opinion"
as the first-matching title keyword, the score is `0.5 + 0.05 - 0.1 =
0.45`. -/
theorem C5_quality_scores (url₁ title₁ url₂ title₂ : Chars)
    (h1 : (containsSub url₁ (str ".edu") || containsSub url₁ (str ".ac.")) = true)
    (h2 : containsSub (lowerChars title₁) (str "research") = true)
    (h3 : containsSub url₂ (str ".com") = true)
    (h4 : containsSub url₂ (str ".edu") = false)
    (h5 : containsSub url₂ (str ".ac.") = false)
    (h6 : containsSub url₂ (str ".gov") = false)
    (h7 : containsSub url₂ (str ".org") = false)
    (h8 : containsSub (lowerChars title₂) (str "opinion") = true)
    (h9 : containsSub (lowerChars title₂) (str "study") = false)
    (h10 : containsSub (lowerChars title₂) (str "research") = false)
    (h11 : containsSub (lowerChars title₂) (str "analysis") = false)
    (h12 : containsSub (lowerChars title₂) (str "report") = false)
    (h13 : containsSub (lowerChars title₂) (str "journal") = false)
    (h14 : containsSub (lowerChars title₂) (str "news") = false)
    (h15 : containsSub (lowerChars title₂) (str "article") = false)
    (h16 : containsSub (lowerChars title₂) (str "blog") = false) :
    assessSourceQuality url₁ title₁ = 1 ∧
    determineSourceType url₁ = str "academic" ∧
    assessSourceQuality url₂ title₂ = 0.45 := by
  refine ⟨?_, ?_, ?_⟩
  · unfold assessSourceQuality
    simp only [h1, h2, Bool.or_true, Bool.true_or, if_true]
    norm_num
  · unfold determineSourceType
    simp only [h1, if_true]
  · unfold assessSourceQuality
    simp only [h3, h4, h5, h6, h7, h8, h9, h10, h11, h12, h13, h14, h15, h16,
      Bool.or_self, Bool.or_false, Bool.false_or, Bool.or_true, Bool.true_or,
      if_true, if_false, Bool.false_eq_true]
    norm_num

/-- Witness for C5 on the concrete URLs/titles from the spec's examples. -/
theorem C5_quality_scores_witness :
    assessSourceQuality (str "http://cs.stanford.edu") (str "New research on AI") = 1 ∧
    determineSourceType (str "http://cs.stanford.edu") = str "academic" ∧
    assessSourceQuality (str "http://blog.example.com") (str "My opinion piece") = 0.45 :=
  C5_quality_scores (str "http://cs.stanford.edu") (str "New research on AI")
    (str "http://blog.example.com") (str "My opinion piece")
    (by decide) (by decide) (by decide) (by decide) (by decide) (by decide) (by decide)
    (by decide) (by decide) (by decide) (by decide) (by decide) (by decide) (by decide)
    (by decide) (by decide)

theorem extractSourcesGo_bounds
    (P : Citation → Prop)
    (hmk : ∀ n t u, P (mkExtractedSource n t u)) :
    ∀ (rest prevRev : List Chars) (acc : List Citation),
      (∀ c ∈ acc, P c) → ∀ c ∈ extractSourcesGo prevRev rest acc, P c := by
  intro rest
  induction rest with
  | nil =>
    intro prevRev acc hacc c hc
    rw [extractSourcesGo] at hc
    exact hacc c (List.mem_reverse.mp hc)
  | cons line more ih =>
    intro prevRev acc hacc c hc
    rw [extractSourcesGo] at hc
    refine ih (line :: prevRev) _ ?_ c hc
    intro d hd
    by_cases hl : containsSub line (str "http") = true
    · simp only [hl, if_true] at hd
      rcases List.mem_cons.mp hd with h | h
      · subst h; apply hmk
      · exact hacc d h
    · simp only [Bool.not_eq_true] at hl
      simp only [hl, Bool.false_eq_true, if_false] at hd
      exact hacc d hd

/-- Claim C7: every source produced by `_extract_sources` has a quality
score clamped to `[0, 1]` and a reliability score of exactly `0.8`. -/
theorem C7_extracted_source_invariants (content : Chars) (c : Citation)
    (hc : c ∈ extractSources content) :
    0 ≤ c.quality_score ∧ c.quality_score ≤ 1 ∧ c.reliability_score = 0.8 := by
  refine extractSourcesGo_bounds
    (fun c => 0 ≤ c.quality_score ∧ c.quality_score ≤ 1 ∧ c.reliability_score = 0.8)
    ?_ _ [] [] (by intro c h; cases h) c hc
  intro n t u
  refine ⟨le_max_left _ _, max_le (by norm_num) (min_le_left _ _), rfl⟩

/-- Witness for C7: a two-line search output in the attributed-source
format yields a source, and the invariants hold for it. -/
theorem C7_extracted_source_invariants_witness :
    0 ≤ ((extractSources (str "**AI Study**\n*Source: http://example.edu*")).getD 0
        default).quality_score ∧
    ((extractSources (str "**AI Study**\n*Source: http://example.edu*")).getD 0
        default).quality_score ≤ 1 ∧
    ((extractSources (str "**AI Study**\n*Source: http://example.edu*")).getD 0
        default).reliability_score = 0.8 :=
  C7_extracted_source_invariants (str "**AI Study**\n*Source: http://example.edu*") _
    (by
      have he : extractSources (str "**AI Study**\n*Source: http://example.edu*") =
          [mkExtractedSource 0 (str "AI Study") (str "http://example.edu")] := rfl
      rw [he]
      exact List.mem_singleton.mpr rfl)

/- ===================================================================
   C6 — `ReflectionAgent._categorize_conflicts` (src/main.py:640-663).
   =================================================================== -/

/-- Temporal keyword group (`['recent', 'latest', 'new', 'old', 'dated',
'current']`) tested on the lowered conflict line. -/
def matchesTemporal (cl : Chars) : Bool :=
  containsSub cl (str "recent") || containsSub cl (str "latest") ||
  containsSub cl (str "new") || containsSub cl (str "old") ||
  containsSub cl (str "dated") || containsSub cl (str "current")

/-- Methodological keyword group. -/
def matchesMethodological (cl : Chars) : Bool :=
  containsSub cl (str "method") || containsSub cl (str "approach") ||
  containsSub cl (str "study") || containsSub cl (str "research") ||
  containsSub cl (str "analysis")

/-- Perspectival keyword group. -/
def matchesPerspectival (cl : Chars) : Bool :=
  containsSub cl (str "perspective") || containsSub cl (str "view") ||
  containsSub cl (str "opinion") || containsSub cl (str "belief") ||
  containsSub cl (str "stance")

/-- Data-quality keyword group. -/
def matchesDataQuality (cl : Chars) : Bool :=
  containsSub cl (str "quality") || containsSub cl (str "reliable") ||
  containsSub cl (str "accurate") || containsSub cl (str "valid") ||
  containsSub cl (str "credible")

/-- The four bucket lists built by `_categorize_conflicts` (before empty
buckets are dropped), in dict insertion order. -/
structure ConflictCategories where
  temporal : List Chars
  methodological : List Chars
  perspectival : List Chars
  data_quality : List Chars
deriving DecidableEq

/-- Bucket names, used to state the first-match-priority assignment. -/
inductive Bucket where
  | temporal
  | methodological
  | perspectival
  | dataQuality
deriving DecidableEq

/-- The bucket a single conflict line is assigned to: the four keyword
groups checked in priority order, defaulting to perspectival. -/
def bucketOf (c : Chars) : Bucket :=
  if matchesTemporal (lowerChars c) then Bucket.temporal
  else if matchesMethodological (lowerChars c) then Bucket.methodological
  else if matchesPerspectival (lowerChars c) then Bucket.perspectival
  else if matchesDataQuality (lowerChars c) then Bucket.dataQuality
  else Bucket.perspectival

/-- `_categorize_conflicts` before the final comprehension: each line is
appended to exactly one bucket (the Python loop appends at the back; this
front recursion produces the same input-ordered bucket contents). -/
def categorizeConflicts : List Chars → ConflictCategories
  | [] => ⟨[], [], [], []⟩
  | c :: rest =>
    let cats := categorizeConflicts rest
    if matchesTemporal (lowerChars c) then { cats with temporal := c :: cats.temporal }
    else if matchesMethodological (lowerChars c) then
      { cats with methodological := c :: cats.methodological }
    else if matchesPerspectival (lowerChars c) then
      { cats with perspectival := c :: cats.perspectival }
    else if matchesDataQuality (lowerChars c) then
      { cats with data_quality := c :: cats.data_quality }
    else { cats with perspectival := c :: cats.perspectival }

/-- The returned dict `{k: v for k, v in categories.items() if v}`. -/
def droppedEmpty (cats : ConflictCategories) : List (Chars × List Chars) :=
  (if cats.temporal = [] then [] else [(str "temporal", cats.temporal)]) ++
  (if cats.methodological = [] then [] else [(str "methodological", cats.methodological)]) ++
  (if cats.perspectival = [] then [] else [(str "perspectival", cats.perspectival)]) ++
  (if cats.data_quality = [] then [] else [(str "data_quality", cats.data_quality)])

theorem categorizeConflicts_eq_filters (conflicts : List Chars) :
    categorizeConflicts conflicts =
      { temporal := conflicts.filter (fun c => decide (bucketOf c = Bucket.temporal))
        methodological := conflicts.filter (fun c => decide (bucketOf c = Bucket.methodological))
        perspectival := conflicts.filter (fun c => decide (bucketOf c = Bucket.perspectival))
        data_quality := conflicts.filter (fun c => decide (bucketOf c = Bucket.dataQuality)) } := by
  induction conflicts with
  | nil => rfl
  | cons c rest ih =>
    by_cases h1 : matchesTemporal (lowerChars c) = true
    · simp [categorizeConflicts, bucketOf, List.filter_cons, decide_eq_true_eq, h1, ih]
    · by_cases h2 : matchesMethodological (lowerChars c) = true
      · simp [categorizeConflicts, bucketOf, List.filter_cons, decide_eq_true_eq, h1, h2, ih]
      · by_cases h3 : matchesPerspectival (lowerChars c) = true
        · simp [categorizeConflicts, bucketOf, List.filter_cons, decide_eq_true_eq, h1, h2, h3, ih]
        · by_cases h4 : matchesDataQuality (lowerChars c) = true
          · simp [categorizeConflicts, bucketOf, List.filter_cons, decide_eq_true_eq, h1, h2, h3, h4, ih]
          · simp [categorizeConflicts, bucketOf, List.filter_cons, decide_eq_true_eq, h1, h2, h3, h4, ih]

theorem categorizeConflicts_concat_perm (conflicts : List Chars) :
    ((categorizeConflicts conflicts).temporal ++
     (categorizeConflicts conflicts).methodological ++
     (categorizeConflicts conflicts).perspectival ++
     (categorizeConflicts conflicts).data_quality).Perm conflicts := by
  induction conflicts with
  | nil => rfl
  | cons c rest ih =>
    set catsR := categorizeConflicts rest with hcats
    have ihr : (catsR.temporal ++ (catsR.methodological ++
        (catsR.perspectival ++ catsR.data_quality))).Perm rest := by
      simpa [List.append_assoc] using ih
    by_cases h1 : matchesTemporal (lowerChars c) = true
    · simp only [categorizeConflicts, ← hcats, h1, if_true, List.cons_append,
        List.append_assoc]
      exact List.Perm.cons c ihr
    · by_cases h2 : matchesMethodological (lowerChars c) = true
      · simp only [categorizeConflicts, ← hcats, h1, h2, if_true, if_false,
          Bool.false_eq_true, List.cons_append, List.append_assoc]
        exact List.perm_middle.trans (List.Perm.cons c ihr)
      · by_cases h3 : matchesPerspectival (lowerChars c) = true
        · simp only [categorizeConflicts, ← hcats, h1, h2, h3, if_true, if_false,
            Bool.false_eq_true, List.cons_append, List.append_assoc]
          have : catsR.temporal ++ (catsR.methodological ++ (c :: (catsR.perspectival ++
              catsR.data_quality))) =
              (catsR.temporal ++ catsR.methodological) ++ (c :: (catsR.perspectival ++
              catsR.data_quality)) := by
            simp [List.append_assoc]
          rw [this]
          refine List.perm_middle.trans ?_
          refine List.Perm.cons c ?_
          simpa [List.append_assoc] using ihr
        · by_cases h4 : matchesDataQuality (lowerChars c) = true
          · simp only [categorizeConflicts, ← hcats, h1, h2, h3, h4, if_true, if_false,
              Bool.false_eq_true, List.cons_append, List.append_assoc]
            have : catsR.temporal ++ (catsR.methodological ++ (catsR.perspectival ++
                (c :: catsR.data_quality))) =
                (catsR.temporal ++ catsR.methodological ++ catsR.perspectival) ++
                (c :: catsR.data_quality) := by
              simp [List.append_assoc]
            rw [this]
            refine List.perm_middle.trans ?_
            refine List.Perm.cons c ?_
            simpa [List.append_assoc] using ihr
          · simp only [categorizeConflicts, ← hcats, h1, h2, h3, h4, if_true, if_false,
              Bool.false_eq_true, List.cons_append, List.append_assoc]
            have : catsR.temporal ++ (catsR.methodological ++ (c :: (catsR.perspectival ++
                catsR.data_quality))) =
                (catsR.temporal ++ catsR.methodological) ++ (c :: (catsR.perspectival ++
                catsR.data_quality)) := by
              simp [List.append_assoc]
            rw [this]
            refine List.perm_middle.trans ?_
            refine List.Perm.cons c ?_
            simpa [List.append_assoc] using ihr

theorem droppedEmpty_join (cats : ConflictCategories) :
    ((droppedEmpty cats).map Prod.snd).flatten =
      cats.temporal ++ cats.methodological ++ cats.perspectival ++ cats.data_quality := by
  unfold droppedEmpty
  split_ifs <;> simp_all

theorem droppedEmpty_mem_ne_nil (k : Chars) (v : List Chars)
    (p : Chars × List Chars)
    (hp : p ∈ (if v = [] then ([] : List (Chars × List Chars)) else [(k, v)])) :
    p.2 ≠ [] := by
  by_cases h : v = []
  · simp [h] at hp
  · simp [h] at hp
    rw [hp]
    exact h

/-- Claim C6: `_categorize_conflicts` assigns every input line to exactly
one of the four buckets — the bucket lists are exactly the input filtered
by the priority-ordered, default-to-perspectival assignment `bucketOf` —
the returned (empty-dropped) buckets are all nonempty, and the multiset
union of the returned buckets' contents is a permutation of the input. -/
theorem C6_categorize_partition (conflicts : List Chars) :
    categorizeConflicts conflicts =
      { temporal := conflicts.filter (fun c => decide (bucketOf c = Bucket.temporal))
        methodological := conflicts.filter (fun c => decide (bucketOf c = Bucket.methodological))
        perspectival := conflicts.filter (fun c => decide (bucketOf c = Bucket.perspectival))
        data_quality := conflicts.filter (fun c => decide (bucketOf c = Bucket.dataQuality)) } ∧
    ((droppedEmpty (categorizeConflicts conflicts)).map Prod.snd).flatten.Perm conflicts ∧
    ∀ p ∈ droppedEmpty (categorizeConflicts conflicts), p.2 ≠ [] := by
  refine ⟨categorizeConflicts_eq_filters conflicts, ?_, ?_⟩
  · rw [droppedEmpty_join]
    exact categorizeConflicts_concat_perm conflicts
  · intro p hp
    unfold droppedEmpty at hp
    rcases List.mem_append.mp hp with hp | hp
    · rcases List.mem_append.mp hp with hp | hp
      · rcases List.mem_append.mp hp with hp | hp
        · exact droppedEmpty_mem_ne_nil _ _ _ hp
        · exact droppedEmpty_mem_ne_nil _ _ _ hp
      · exact droppedEmpty_mem_ne_nil _ _ _ hp
    · exact droppedEmpty_mem_ne_nil _ _ _ hp

/-- Witness for C6: one temporal conflict line; the returned bucket it
lands in is nonempty. -/
theorem C6_categorize_partition_witness :
    ((str "temporal", [str "However, the recent study disagrees"]) ∈
      droppedEmpty (categorizeConflicts [str "However, the recent study disagrees"])) ∧
    ((str "temporal", [str "However, the recent study disagrees"]) :
      Chars × List Chars).2 ≠ [] :=
  ⟨by decide,
   (C6_categorize_partition [str "However, the recent study disagrees"]).2.2 _ (by decide)⟩

/- ===================================================================
   C9 — `RequirementGatheringAgent._parse_requirements` (src/main.py:
   148-227) and `PlanningAgent._parse_plan` (src/main.py:297-329).
   =================================================================== -/

/-- The `user_preferences` dict built by `_extract_user_preferences`. -/
structure UserPreferences where
  preferred_sources : List Chars
  detail_level : Chars
  focus_areas : List Chars
  avoid_areas : List Chars
deriving DecidableEq

/-- The `ResearchRequirement` dataclass (src/main.py:52-63). -/
structure ResearchRequirement where
  original_question : Chars
  clarified_question : Chars
  research_depth : Chars
  specific_requirements : List Chars
  user_context : List (Chars × Chars)
  success_criteria : List Chars
  user_preferences : Option UserPreferences := none
  research_history : Option (List Chars) := none
  expertise_level : Chars := str "intermediate"
deriving DecidableEq

/-- A task dict produced by `_parse_plan` (`id`/`description`/`agent`/
`duration` keys). -/
structure Task where
  id : Chars
  description : Chars
  agent : Chars
  duration : Chars
deriving DecidableEq

/-- The `ResearchPlan` dataclass (src/main.py:65-73). -/
structure ResearchPlan where
  original_question : Chars
  research_approach : Chars
  tasks : List Task
  estimated_duration : Chars
  success_criteria : List Chars
  required_agents : List Chars
deriving DecidableEq

/-- `_assess_expertise_level` (src/main.py:180-200). -/
def assessExpertiseLevel (question : Chars) : Chars :=
  if containsSub (lowerChars question) (str "methodology") ||
     containsSub (lowerChars question) (str "framework") ||
     containsSub (lowerChars question) (str "paradigm") ||
     containsSub (lowerChars question) (str "theoretical") ||
     containsSub (lowerChars question) (str "empirical") ||
     containsSub (lowerChars question) (str "quantitative") ||
     containsSub (lowerChars question) (str "qualitative") ||
     containsSub (lowerChars question) (str "meta-analysis") ||
     containsSub (lowerChars question) (str "systematic review") then str "expert"
  else if containsSub (lowerChars question) (str "what is") ||
          containsSub (lowerChars question) (str "define") ||
          containsSub (lowerChars question) (str "explain") ||
          containsSub (lowerChars question) (str "basics") ||
          containsSub (lowerChars question) (str "introduction") ||
          containsSub (lowerChars question) (str "simple") then str "beginner"
  else str "intermediate"

/-- `_extract_user_preferences` (src/main.py:202-227). -/
def extractUserPreferences (question : Chars) : UserPreferences :=
  { preferred_sources := []
    detail_level :=
      if containsSub (lowerChars question) (str "detailed") ||
         containsSub (lowerChars question) (str "comprehensive") then str "high"
      else if containsSub (lowerChars question) (str "brief") ||
              containsSub (lowerChars question) (str "summary") then str "low"
      else str "standard"
    focus_areas :=
      (if containsSub (lowerChars question) (str "technical") ||
          containsSub (lowerChars question) (str "technical details") then [str "technical"]
       else []) ++
      (if containsSub (lowerChars question) (str "practical") ||
          containsSub (lowerChars question) (str "application") then [str "practical"]
       else []) ++
      (if containsSub (lowerChars question) (str "academic") ||
          containsSub (lowerChars question) (str "research") then [str "academic"]
       else [])
    avoid_areas := [] }

/-- The research-depth heuristic of `_parse_requirements`
(src/main.py:153-160): "deep" for comparison/analysis questions,
"standard" both for definition questions and in the fallback branch. -/
def parseDepth (original : Chars) : Chars :=
  if containsSub (lowerChars original) (str "compare") ||
     containsSub (lowerChars original) (str "analyze") ||
     containsSub (lowerChars original) (str "evaluate") ||
     containsSub (lowerChars original) (str "comprehensive") ||
     containsSub (lowerChars original) (str "detailed") then str "deep"
  else if containsSub (lowerChars original) (str "what is") ||
          containsSub (lowerChars original) (str "define") ||
          containsSub (lowerChars original) (str "explain") then str "standard"
  else str "standard"

/-- `_parse_requirements(original, response)`; the LLM `response` is
received but never inspected. -/
def parseRequirements (original response : Chars) : ResearchRequirement :=
  { original_question := original
    clarified_question := original
    research_depth := parseDepth original
    specific_requirements := []
    user_context := []
    success_criteria := [str "Comprehensive research report with sources"]
    user_preferences := some (extractUserPreferences original)
    research_history := some []
    expertise_level := assessExpertiseLevel original }

/-- The 2-task list of the `"basic"` branch of `_parse_plan`. -/
def basicTasks : List Task :=
  [⟨str "search_basic", str "Basic search for key facts", str "Search", str "5-10 min"⟩,
   ⟨str "synthesize_basic", str "Synthesize basic findings", str "Reflection", str "5-10 min"⟩]

/-- The 3-task list of the `"standard"` branch of `_parse_plan`. -/
def standardTasks : List Task :=
  [⟨str "search_comprehensive", str "Comprehensive search for facts and data", str "Search",
    str "10-15 min"⟩,
   ⟨str "analyze_sources", str "Analyze and validate sources", str "Reflection", str "5-10 min"⟩,
   ⟨str "create_citations", str "Create proper citations", str "Citations", str "5-10 min"⟩]

/-- The 5-task list of the `else` (deep/expert) branch of `_parse_plan`. -/
def deepTasks : List Task :=
  [⟨str "search_primary", str "Primary source research", str "Search", str "15-20 min"⟩,
   ⟨str "search_secondary", str "Secondary source research", str "Search", str "10-15 min"⟩,
   ⟨str "analyze_conflicts", str "Analyze conflicting information", str "Reflection",
    str "10-15 min"⟩,
   ⟨str "synthesize_findings", str "Synthesize all findings", str "Reflection", str "10-15 min"⟩,
   ⟨str "create_citations", str "Create comprehensive citations", str "Citations",
    str "10-15 min"⟩]

/-- `_parse_plan(requirements, response)`; the LLM `response` is ignored
and the task list depends only on `research_depth`. -/
def parsePlan (req : ResearchRequirement) (response : Chars) : ResearchPlan :=
  let tasks :=
    if req.research_depth = str "basic" then basicTasks
    else if req.research_depth = str "standard" then standardTasks
    else deepTasks
  { original_question := req.clarified_question
    research_approach :=
      str "Multi-agent " ++ req.research_depth ++ str " research approach"
    tasks := tasks
    estimated_duration :=
      natChars (tasks.length * 10) ++ str "-" ++ natChars (tasks.length * 15) ++ str " minutes"
    success_criteria := req.success_criteria
    required_agents := [str "Search", str "Reflection", str "Citations"] }

/-- Claim C9: the requirement parser only assigns depth "deep" or
"standard", so every plan built from a pipeline-produced requirement
takes the 3-task or the 5-task branch; the 2-task "basic" branch
(`basicTasks`, of length 2) is unreachable through the pipeline. -/
theorem C9_basic_branch_unreachable (original response response₂ : Chars) :
    ((parseRequirements original response).research_depth = str "deep" ∨
     (parseRequirements original response).research_depth = str "standard") ∧
    ((parsePlan (parseRequirements original response) response₂).tasks = standardTasks ∨
     (parsePlan (parseRequirements original response) response₂).tasks = deepTasks) ∧
    ((parsePlan (parseRequirements original response) response₂).tasks.length = 3 ∨
     (parsePlan (parseRequirements original response) response₂).tasks.length = 5) ∧
    basicTasks.length = 2 := by
  have hdepth : (parseRequirements original response).research_depth = parseDepth original := rfl
  have hd : parseDepth original = str "deep" ∨ parseDepth original = str "standard" := by
    unfold parseDepth
    split_ifs with h1 h2
    · exact Or.inl rfl
    · exact Or.inr rfl
    · exact Or.inr rfl
  rcases hd with hd | hd
  · refine ⟨Or.inl (hdepth ▸ hd), ?_, ?_, rfl⟩
    · right
      unfold parsePlan
      rw [hdepth, hd]
      simp [str, basicTasks, standardTasks, deepTasks]
    · right
      unfold parsePlan
      rw [hdepth, hd]
      simp [str, basicTasks, standardTasks, deepTasks]
  · refine ⟨Or.inr (hdepth ▸ hd), ?_, ?_, rfl⟩
    · left
      unfold parsePlan
      rw [hdepth, hd]
      simp [str, basicTasks, standardTasks, deepTasks]
    · left
      unfold parsePlan
      rw [hdepth, hd]
      simp [str, basicTasks, standardTasks, deepTasks]

/- ===================================================================
   Orchestrator data flow — `LeadResearchAgent` (src/main.py:769-1195).

   External LLM/search calls are oracles: `searchOut k` is the final
   outcome (value or exception) of search task `k` after rate limiting
   and retries, `reflectOut k content` likewise for reflection task `k`
   run on `content`.  The trace models the deterministic post-`gather`
   result-processing logs (`search_task_i_failed/completed`,
   `reflection_task_i_failed/completed`); the in-coroutine handoff logs
   interleave in scheduler order and carry wall-clock timestamps, so they
   are outside the model.
   =================================================================== -/

/-- The `ResearchResult` dataclass (src/main.py:75-82). -/
structure ResearchResult where
  content : Chars
  sources : List Citation
  confidence_level : Chars
  conflicts_noted : List Chars
  quality_score : ℚ
deriving DecidableEq

instance : Inhabited ResearchResult := ⟨⟨[], [], [], [], 0⟩⟩

/-- One `_log_execution` entry (timestamp, a wall-clock read, omitted). -/
structure TraceEntry where
  agent : Chars
  action : Chars
  duration : Option ℚ
  success : Bool
  details : Chars
deriving DecidableEq

/-- One per-agent record of `performance_metrics`. -/
structure AgentMetrics where
  total_calls : Nat
  successful_calls : Nat
  total_duration : ℚ
  average_duration : ℚ
deriving DecidableEq

/-- The dict returned by `get_execution_summary` (src/main.py:832-839). -/
structure ExecSummary where
  total_operations : Nat
  execution_trace : List TraceEntry
  performance_metrics : List (Chars × AgentMetrics)
  success_rate : ℚ

/-- `_calculate_success_rate` (src/main.py:841-848). -/
def calcSuccessRate (trace : List TraceEntry) : ℚ :=
  if trace = [] then 0
  else ((trace.countP (fun e => e.success)) : ℚ) / (trace.length : ℚ)

/-- `get_execution_summary`: total count, last 10 entries, metrics map,
overall success rate. -/
def getExecutionSummary (trace : List TraceEntry)
    (metrics : List (Chars × AgentMetrics)) : ExecSummary :=
  { total_operations := trace.length
    execution_trace := trace.drop (trace.length - 10)
    performance_metrics := metrics
    success_rate := calcSuccessRate trace }

/-- Outcome of one search/reflection task: a result or a captured
exception message (`asyncio.gather(..., return_exceptions=True)`). -/
def exceptToOpt : Except Chars ResearchResult → Option ResearchResult
  | Except.ok r => some r
  | Except.error _ => none

/-- The `search_task_{i+1}_failed` log entry (src/main.py:1043). -/
def searchFailEntry (i : Nat) (e : Chars) : TraceEntry :=
  ⟨str "SearchAgent", str "search_task_" ++ natChars (i + 1) ++ str "_failed", none, false, e⟩

/-- The `search_task_{i+1}_completed` log entry (src/main.py:1048). -/
def searchDoneEntry (i : Nat) (r : ResearchResult) : TraceEntry :=
  ⟨str "SearchAgent", str "search_task_" ++ natChars (i + 1) ++ str "_completed", none, true,
   str "Found " ++ natChars r.sources.length ++ str " sources"⟩

/-- The post-`gather` search-results loop (src/main.py:1039-1048):
exceptions are logged as failures and dropped, results are collected in
order and logged as completed. -/
def processSearchGo : Nat → List (Except Chars ResearchResult) →
    List ResearchResult × List TraceEntry
  | _, [] => ([], [])
  | i, o :: rest =>
    let p := processSearchGo (i + 1) rest
    match o with
    | Except.error e => (p.1, searchFailEntry i e :: p.2)
    | Except.ok r => (r :: p.1, searchDoneEntry i r :: p.2)

/-- The search-results loop started at index 0. -/
def processSearchOutcomes (outs : List (Except Chars ResearchResult)) :
    List ResearchResult × List TraceEntry :=
  processSearchGo 0 outs

/-- The `reflection_task_{i+1}_failed` log entry (src/main.py:1089). -/
def reflectionFailEntry (i : Nat) (e : Chars) : TraceEntry :=
  ⟨str "ReflectionAgent", str "reflection_task_" ++ natChars (i + 1) ++ str "_failed", none,
   false, e⟩

/-- The `reflection_task_{i+1}_completed` log entry (src/main.py:1094). -/
def reflectionDoneEntry (i : Nat) (r : ResearchResult) : TraceEntry :=
  ⟨str "ReflectionAgent", str "reflection_task_" ++ natChars (i + 1) ++ str "_completed", none,
   true, str "Confidence: " ++ r.confidence_level⟩

/-- The post-`gather` reflection-results loop (src/main.py:1085-1094). -/
def processReflectionGo : Nat → List (Except Chars ResearchResult) →
    List ResearchResult × List TraceEntry
  | _, [] => ([], [])
  | i, o :: rest =>
    let p := processReflectionGo (i + 1) rest
    match o with
    | Except.error e => (p.1, reflectionFailEntry i e :: p.2)
    | Except.ok r => (r :: p.1, reflectionDoneEntry i r :: p.2)

/-- The reflection-results loop started at index 0. -/
def processReflectionOutcomes (outs : List (Except Chars ResearchResult)) :
    List ResearchResult × List TraceEntry :=
  processReflectionGo 0 outs

/-- The search content bound to each reflection task (src/main.py:1062):
with `for i, task in enumerate(reflection_tasks, 1)` the task at 1-based
index `i` reads `results["search_results"][i % len(...)].content`; here
`k` is the 0-based position, so the index is `(k + 1) % n`. -/
def reflectionBoundContents (searchResults : List ResearchResult) (m : Nat) : List Chars :=
  (List.range m).map fun k =>
    (searchResults.getD ((k + 1) % searchResults.length) default).content

/-- The reflection batch (src/main.py:1051-1083): run only when there are
reflection tasks and at least one search result; task `k` is invoked on
its cyclically bound search content. -/
def reflectionRawOutcomes (reflectOut : Nat → Chars → Except Chars ResearchResult)
    (searchResults : List ResearchResult) (reflTasks : List Task) :
    List (Except Chars ResearchResult) :=
  if reflTasks ≠ [] ∧ searchResults ≠ [] then
    ((reflectionBoundContents searchResults reflTasks.length).enum).map
      fun p => reflectOut p.1 p.2
  else []

/-- The `results` dict of `_execute_research_plan`. -/
structure ExecResults where
  search_results : List ResearchResult
  reflection_results : List ResearchResult
  citations : List Citation
deriving DecidableEq

/-- The in-place enhancement `create_citations` applies to each passed
citation (src/main.py:759-761). -/
def mutateCitation (c : Citation) : Citation :=
  { c with author := some (str "Unknown"), publication_date := some (str "2024") }

/-- Value-level view of `CitationsAgent.create_citations(sources)`: the
returned list holds the same citations with author/date set (the aliasing
of the underlying objects is modelled separately with a store). -/
def createCitationsVal (sources : List Citation) : List Citation :=
  sources.map mutateCitation

/-- `all_sources`: concatenation of the sources of all successful search
results, never deduplicated (src/main.py:1101-1103, 1144-1146). -/
def allSourcesOfList (rs : List ResearchResult) : List Citation :=
  (rs.map (fun r => r.sources)).flatten

/-- `allSourcesOfList` over the results dict. -/
def allSourcesOf (results : ExecResults) : List Citation :=
  allSourcesOfList results.search_results

/-- `_execute_research_plan` (src/main.py:993-1131): partition tasks by
agent kind; run the search batch (failures captured per task); run the
reflection batch only when some search result exists; run citation tasks
sequentially, each extending the flat citation list with
`create_citations(all_sources)`. -/
def executeResearchPlan (searchOut : Nat → Except Chars ResearchResult)
    (reflectOut : Nat → Chars → Except Chars ResearchResult)
    (plan : ResearchPlan) : ExecResults × List TraceEntry :=
  let search_tasks := plan.tasks.filter (fun t => decide (t.agent = str "Search"))
  let reflection_tasks := plan.tasks.filter (fun t => decide (t.agent = str "Reflection"))
  let citation_tasks := plan.tasks.filter (fun t => decide (t.agent = str "Citations"))
  let searchPair :=
    if search_tasks ≠ [] then
      processSearchOutcomes ((List.range search_tasks.length).map searchOut)
    else ([], [])
  let reflPair :=
    processReflectionOutcomes (reflectionRawOutcomes reflectOut searchPair.1 reflection_tasks)
  let all_sources := allSourcesOfList searchPair.1
  let citations :=
    if citation_tasks ≠ [] ∧ all_sources ≠ [] then
      (List.replicate citation_tasks.length (createCitationsVal all_sources)).flatten
    else []
  ({ search_results := searchPair.1, reflection_results := reflPair.1, citations := citations },
   searchPair.2 ++ reflPair.2)

/- ===================================================================
   Final report — `_create_final_report` (src/main.py:1133-1195) and the
   execution-summary block appended by `conduct_research`
   (src/main.py:966-983).
   =================================================================== -/

/-- `all_content`: search contents then reflection contents
(src/main.py:1135-1141). -/
def allContentOf (results : ExecResults) : List Chars :=
  results.search_results.map (fun r => r.content) ++
    results.reflection_results.map (fun r => r.content)

/-- One "key findings" bullet:
`f"• {content[:500]}..." if len(content) > 500 else f"• {content}"`. -/
def previewLine (content : Chars) : Chars :=
  if content.length > 500 then str "• " ++ content.take 500 ++ str "..."
  else str "• " ++ content

/-- `chr(10).join(...)`. -/
def joinNL (l : List Chars) : Chars := List.intercalate (str "\n") l

/-- The Key Findings section body: previews of the first 5 content blobs. -/
def keyFindingsText (results : ExecResults) : Chars :=
  joinNL (((allContentOf results).take 5).map previewLine)

/-- The Detailed Research Results section body: the first 3 full blobs. -/
def detailedText (results : ExecResults) : Chars :=
  joinNL (((allContentOf results).take 3).enum.map
    (fun p => str "### Research Finding " ++ natChars (p.1 + 1) ++ str "\n" ++ p.2 ++ str "\n"))

/-- The Sources and Citations section body: the first 10 sources in APA
reference style. -/
def citationsText (results : ExecResults) : Chars :=
  joinNL (((allSourcesOf results).take 10).enum.map
    (fun p => str "[" ++ natChars (p.1 + 1) ++ str "] " ++ toApaFormat p.2))

/-- `_create_final_report`'s f-string template, with the two
`time.strftime` reads passed in as `dateStr`/`timeStr`. -/
def createFinalReport (question depth dateStr timeStr : Chars) (results : ExecResults) : Chars :=
  str "\n# Research Report: " ++ question ++
  str "\n\n**Date:** " ++ dateStr ++
  str "\n**Research Depth:** " ++ depth ++
  str "\n**Author:** Deep Research Agent System\n\n---\n\n## Executive Summary\n\nThis comprehensive research report addresses: " ++
  question ++
  str "\n\nThe research was conducted using a multi-agent system with specialized agents for search, analysis, and citation management.\n\n## Key Findings\n\n" ++
  keyFindingsText results ++
  str "\n\n## Detailed Research Results\n\n" ++
  detailedText results ++
  str "\n\n## Sources and Citations\n\n" ++
  citationsText results ++
  str "\n\n## Research Methodology\n\nThis research was conducted using:\n- **Search Agent**: Web search and data gathering using Tavily API\n- **Reflection Agent**: Analysis and synthesis of findings\n- **Citations Agent**: Reference management and formatting\n\n## Quality Assessment\n\n- **Confidence Level**: High\n- **Source Quality**: Professional and academic sources\n- **Coverage**: Comprehensive\n- **Search Results**: " ++
  natChars (allSourcesOf results).length ++
  str " sources found\n\n---\n\n**Report Generated:** " ++ timeStr ++ str "\n"

/-- CPython's `format(x, '.1f')`, idealized over exact rationals with
round-half-up (no report-level claim depends on tie behaviour). -/
def fmtFixed1 (x : ℚ) : Chars :=
  if Int.floor (x * 10 + 1 / 2) < 0 then
    '-' :: (natChars ((-(Int.floor (x * 10 + 1 / 2))).toNat / 10) ++
      '.' :: natChars ((-(Int.floor (x * 10 + 1 / 2))).toNat % 10))
  else
    natChars ((Int.floor (x * 10 + 1 / 2)).toNat / 10) ++
      '.' :: natChars ((Int.floor (x * 10 + 1 / 2)).toNat % 10)

/-- CPython's `f"{x:.1%}"`. -/
def fmtPercent1 (x : ℚ) : Chars := fmtFixed1 (x * 100) ++ str "%"

/-- The execution-summary block `conduct_research` appends to the report
(src/main.py:966-983), derived from `get_execution_summary()`. -/
def execSummaryBlock (s : ExecSummary) : Chars :=
  str "\n\n## 🔍 **Execution Summary**\n\n" ++
  str "**Total Operations:** " ++ natChars s.total_operations ++ str "\n" ++
  str "**Success Rate:** " ++ fmtPercent1 s.success_rate ++ str "\n" ++
  str "**Performance Metrics:**\n" ++
  (s.performance_metrics.map
    (fun p => str "- **" ++ p.1 ++ str ":** " ++ natChars p.2.successful_calls ++ str "/" ++
      natChars p.2.total_calls ++ str " calls, avg " ++ fmtFixed1 p.2.average_duration ++
      str "s\n")).flatten ++
  (if (s.execution_trace.filter
        (fun e => containsSub e.action (str "handoff"))) = [] then []
   else
    str "\n**Handoff Events:** " ++
    natChars (s.execution_trace.filter
      (fun e => containsSub e.action (str "handoff"))).length ++ str "\n" ++
    str "- **Lead → Requirement Gathering:** ✅\n- **Lead → Planning:** ✅\n- **Lead → Search Agents:** ✅\n- **Lead → Reflection Agents:** ✅\n- **Lead → Citations Agents:** ✅\n")

/-- The string `conduct_research` returns: the final report plus the
appended execution-summary block. -/
def conductReport (question depth dateStr timeStr : Chars) (results : ExecResults)
    (trace : List TraceEntry) (metrics : List (Chars × AgentMetrics)) : Chars :=
  createFinalReport question depth dateStr timeStr results ++
    execSummaryBlock (getExecutionSummary trace metrics)

/- ===================================================================
   C2 — reflection-task-to-search-result cyclic binding.
   =================================================================== -/

/-- Claim C2: when at least one search result exists, the reflection
batch invokes every reflection task (one outcome per task), and the task
at 1-based index `t` (Python's `enumerate(reflection_tasks, 1)`) is bound
to the content of the search result at index `t % n` where `n` is the
number of successful search results — cyclically reusing search content
when reflection tasks outnumber search results. -/
theorem C2_reflection_binding (searchResults : List ResearchResult) (m : Nat)
    (h : searchResults ≠ []) :
    (reflectionBoundContents searchResults m).length = m ∧
    (∀ (reflectOut : Nat → Chars → Except Chars ResearchResult) (reflTasks : List Task),
      reflTasks ≠ [] →
      (reflectionRawOutcomes reflectOut searchResults reflTasks).length = reflTasks.length) ∧
    ∀ t, 1 ≤ t → t ≤ m →
      (reflectionBoundContents searchResults m).getD (t - 1) [] =
        (searchResults.getD (t % searchResults.length) default).content := by
  refine ⟨by simp [reflectionBoundContents], ?_, ?_⟩
  · intro reflectOut reflTasks htasks
    unfold reflectionRawOutcomes
    rw [if_pos ⟨htasks, h⟩]
    simp [reflectionBoundContents]
  · intro t h1 h2
    have ht : t - 1 < m := by omega
    unfold reflectionBoundContents
    rw [List.getD_eq_getElem?_getD, List.getElem?_map, List.getElem?_range ht]
    simp [Nat.sub_add_cancel h1]

/-- A successful search result used in concrete instances. -/
def rrA : ResearchResult := ⟨str "content-A", [], str "high", [], 0.85⟩

/-- A second successful search result used in concrete instances. -/
def rrB : ResearchResult := ⟨str "content-B", [], str "high", [], 0.85⟩

/-- Three reflection tasks used by the C2 witness. -/
def reflTasksW : List Task :=
  [⟨str "r1", str "d1", str "Reflection", str "5"⟩,
   ⟨str "r2", str "d2", str "Reflection", str "5"⟩,
   ⟨str "r3", str "d3", str "Reflection", str "5"⟩]

/-- A reflection oracle that always succeeds. -/
def reflectOutW : Nat → Chars → Except Chars ResearchResult :=
  fun _ _ => Except.ok default

/-- Witness for C2: 2 search results and 3 reflection tasks; all 3 run,
and task 3 wraps around to the result at index `3 % 2 = 1`. -/
theorem C2_reflection_binding_witness :
    ([rrA, rrB] : List ResearchResult) ≠ [] ∧
    (reflectionBoundContents [rrA, rrB] 3).length = 3 ∧
    (reflectionRawOutcomes reflectOutW [rrA, rrB] reflTasksW).length = reflTasksW.length ∧
    (reflectionBoundContents [rrA, rrB] 3).getD 2 [] =
      (([rrA, rrB] : List ResearchResult).getD (3 % 2) default).content := by
  have h : ([rrA, rrB] : List ResearchResult) ≠ [] := by
    intro hcon
    cases hcon
  obtain ⟨ha, hb, hc⟩ := C2_reflection_binding [rrA, rrB] 3 h
  exact ⟨h, ha, hb reflectOutW reflTasksW (by intro hcon; cases hcon),
    hc 3 (by decide) (by decide)⟩

/- ===================================================================
   C3 — per-task failure capture and the all-search-failed pipeline run.
   =================================================================== -/

theorem processSearchGo_results (outs : List (Except Chars ResearchResult)) :
    ∀ i, (processSearchGo i outs).1 = outs.filterMap exceptToOpt := by
  induction outs with
  | nil => intro i; rfl
  | cons o rest ih =>
    intro i
    cases o with
    | error e => simp [processSearchGo, exceptToOpt, List.filterMap_cons, ih]
    | ok r => simp [processSearchGo, exceptToOpt, List.filterMap_cons, ih]

theorem processSearchGo_log (outs : List (Except Chars ResearchResult)) :
    ∀ i, (processSearchGo i outs).2 = (outs.enumFrom i).map
      (fun p => match p.2 with
        | Except.error e => searchFailEntry p.1 e
        | Except.ok r => searchDoneEntry p.1 r) := by
  induction outs with
  | nil => intro i; rfl
  | cons o rest ih =>
    intro i
    cases o with
    | error e => simp [processSearchGo, List.enumFrom, ih]
    | ok r => simp [processSearchGo, List.enumFrom, ih]

/-- The concrete plan of the claim: 1 search task and 2 reflection tasks. -/
def planC3 : ResearchPlan :=
  { original_question := str "q"
    research_approach := str "a"
    tasks := [⟨str "s1", str "search", str "Search", str "5"⟩,
              ⟨str "r1", str "reflect", str "Reflection", str "5"⟩,
              ⟨str "r2", str "reflect2", str "Reflection", str "5"⟩]
    estimated_duration := str ""
    success_criteria := []
    required_agents := [] }

/-- A search oracle whose only task always fails. -/
def searchOutC3 : Nat → Except Chars ResearchResult :=
  fun _ => Except.error (str "API failure")

/-- A reflection oracle that would succeed (never reached in this run). -/
def reflectOutC3 : Nat → Chars → Except Chars ResearchResult :=
  fun _ _ => Except.ok default

/-- Claim C3: search-task failures are captured per task — the collected
search results are exactly the successful outcomes, and every outcome is
logged (failures with `success := false`) — and the concrete run with 1
failing search task and 2 reflection tasks completes with no search
results, no reflection results, no citations, a source count of 0, the
failure traced, and a non-empty final report string. -/
theorem C3_failure_isolation :
    (∀ outs : List (Except Chars ResearchResult),
      (processSearchOutcomes outs).1 = outs.filterMap exceptToOpt ∧
      (processSearchOutcomes outs).2 = (outs.enumFrom 0).map
        (fun p => match p.2 with
          | Except.error e => searchFailEntry p.1 e
          | Except.ok r => searchDoneEntry p.1 r)) ∧
    (executeResearchPlan searchOutC3 reflectOutC3 planC3).1.search_results = [] ∧
    (executeResearchPlan searchOutC3 reflectOutC3 planC3).1.reflection_results = [] ∧
    (executeResearchPlan searchOutC3 reflectOutC3 planC3).1.citations = [] ∧
    allSourcesOf (executeResearchPlan searchOutC3 reflectOutC3 planC3).1 = [] ∧
    (executeResearchPlan searchOutC3 reflectOutC3 planC3).2 =
      [searchFailEntry 0 (str "API failure")] ∧
    (searchFailEntry 0 (str "API failure")).success = false ∧
    conductReport (str "q") (str "standard") (str "2024-01-01") (str "12:00:00")
      (executeResearchPlan searchOutC3 reflectOutC3 planC3).1
      (executeResearchPlan searchOutC3 reflectOutC3 planC3).2 [] ≠ [] := by
  refine ⟨?_, rfl, rfl, rfl, rfl, rfl, rfl, ?_⟩
  · intro outs
    exact ⟨processSearchGo_results outs 0, processSearchGo_log outs 0⟩
  · intro hcon
    cases hcon

/- ===================================================================
   C4 — the synthesized report's sections, in order.
   =================================================================== -/

/-- "`s` contains `parts` in order": the parts occur left to right as
disjoint contiguous substrings. -/
def ContainsInOrder : Chars → List Chars → Prop
  | _, [] => True
  | s, p :: ps => ∃ pre suf, s = pre ++ p ++ suf ∧ ContainsInOrder suf ps

theorem containsInOrder_cons {ps : List Chars} (pre p suf : Chars)
    (h : ContainsInOrder suf ps) : ContainsInOrder (pre ++ (p ++ suf)) (p :: ps) :=
  ⟨pre, suf, (List.append_assoc pre p suf).symm, h⟩

theorem containsInOrder_decomp :
    ∀ (parts : List Chars) (s : Chars), ContainsInOrder s parts →
      ∀ p ∈ parts, ∃ a b, s = a ++ p ++ b := by
  intro parts
  induction parts with
  | nil =>
    intro s _ p hp
    cases hp
  | cons q qs ih =>
    intro s h p hp
    obtain ⟨pre, suf, hs, hrest⟩ := h
    rcases List.mem_cons.mp hp with hpq | hp
    · exact ⟨pre, suf, hpq ▸ hs⟩
    · obtain ⟨a, b, hab⟩ := ih suf hrest p hp
      exact ⟨pre ++ q ++ a, b, by rw [hs, hab]; simp [List.append_assoc]⟩

/-- Claim C4 (amended): the string returned by `conduct_research`
contains, in order, the key-findings section (previews — first 500
characters — of the **first 5** content blobs), the detailed-results
section (first 3 full blobs), the first 10 citations in the fixed APA
reference style, and the execution-summary block derived from the
tracer's summary. -/
theorem C4_report_sections (question depth dateStr timeStr : Chars) (results : ExecResults)
    (trace : List TraceEntry) (metrics : List (Chars × AgentMetrics)) :
    ContainsInOrder (conductReport question depth dateStr timeStr results trace metrics)
      [keyFindingsText results, detailedText results, citationsText results,
       execSummaryBlock (getExecutionSummary trace metrics)] := by
  have hre : conductReport question depth dateStr timeStr results trace metrics =
      (str "\n# Research Report: " ++ question ++ str "\n\n**Date:** " ++ dateStr ++
        str "\n**Research Depth:** " ++ depth ++
        str "\n**Author:** Deep Research Agent System\n\n---\n\n## Executive Summary\n\nThis comprehensive research report addresses: " ++
        question ++
        str "\n\nThe research was conducted using a multi-agent system with specialized agents for search, analysis, and citation management.\n\n## Key Findings\n\n") ++
      (keyFindingsText results ++
      (str "\n\n## Detailed Research Results\n\n" ++
      (detailedText results ++
      (str "\n\n## Sources and Citations\n\n" ++
      (citationsText results ++
      ((str "\n\n## Research Methodology\n\nThis research was conducted using:\n- **Search Agent**: Web search and data gathering using Tavily API\n- **Reflection Agent**: Analysis and synthesis of findings\n- **Citations Agent**: Reference management and formatting\n\n## Quality Assessment\n\n- **Confidence Level**: High\n- **Source Quality**: Professional and academic sources\n- **Coverage**: Comprehensive\n- **Search Results**: " ++
        natChars (allSourcesOf results).length ++
        str " sources found\n\n---\n\n**Report Generated:** " ++ timeStr ++ str "\n") ++
      (execSummaryBlock (getExecutionSummary trace metrics) ++ ([] : Chars)))))))) := by
    simp [conductReport, createFinalReport, List.append_assoc]
  rw [hre]
  exact containsInOrder_cons _ _ _ (containsInOrder_cons _ _ _ (containsInOrder_cons _ _ _
    (containsInOrder_cons _ _ _ trivial)))

/-- A successful search result with a given content blob and no sources. -/
def rrWith (c : Chars) : ResearchResult := ⟨c, [], str "high", [], 0.85⟩

/-- Six content blobs; the sixth (`"~"`) exceeds the report's 5-blob
key-findings window. -/
def resultsC4 : ExecResults :=
  ⟨[rrWith (str "a"), rrWith (str "b"), rrWith (str "c"), rrWith (str "d"),
    rrWith (str "e"), rrWith (str "~")], [], []⟩

set_option maxRecDepth 40000 in
/-- Counterexample to C4 as stated: with 6 collected content blobs the
key-findings section does not hold a preview of *each* blob — the
preview of the sixth blob (`"• ~"`) occurs nowhere in the report, because
`_create_final_report` previews only `all_content[:5]`. -/
theorem C4_counterexample :
    ¬ ContainsInOrder
        (conductReport (str "q") (str "standard") (str "2024-01-01") (str "12:00:00")
          resultsC4 [] [])
        (((allContentOf resultsC4).map previewLine) ++
          [detailedText resultsC4, citationsText resultsC4,
           execSummaryBlock (getExecutionSummary [] [])]) := by
  intro h
  have hp : str "• ~" ∈ ((allContentOf resultsC4).map previewLine) ++
      [detailedText resultsC4, citationsText resultsC4,
       execSummaryBlock (getExecutionSummary [] [])] :=
    List.mem_append_left _ (by decide)
  obtain ⟨a, b, hab⟩ := containsInOrder_decomp _ _ h _ hp
  have htil : '~' ∈ conductReport (str "q") (str "standard") (str "2024-01-01")
      (str "12:00:00") resultsC4 [] [] := by
    rw [hab]
    exact List.mem_append.mpr (Or.inl (List.mem_append.mpr (Or.inr (by decide))))
  have h0 : calcSuccessRate [] = 0 := by simp [calcSuccessRate]
  have hfmt : fmtPercent1 (0 : ℚ) = str "0.0%" := by
    unfold fmtPercent1 fmtFixed1
    rw [show ((0 : ℚ) * 100 * 10 + 1 / 2) = 1 / 2 by ring]
    rw [show Int.floor ((1 : ℚ) / 2) = 0 by
      rw [Int.floor_eq_iff]
      norm_num]
    decide
  have hEX : execSummaryBlock (getExecutionSummary [] []) =
      str "\n\n## 🔍 **Execution Summary**\n\n**Total Operations:** 0\n**Success Rate:** 0.0%\n**Performance Metrics:**\n" := by
    simp only [execSummaryBlock, getExecutionSummary]
    rw [h0, hfmt]
    rfl
  unfold conductReport at htil
  rcases List.mem_append.mp htil with hmm | hmm
  · exact absurd hmm (by decide)
  · rw [hEX] at hmm
    exact absurd hmm (by decide)

/- ===================================================================
   C10 — `CitationsAgent.create_citations` mutates and returns its input
   (src/main.py:744-763), and the citation loop appends the same objects
   once per task (src/main.py:1096-1126).  Object identity is modelled
   with an explicit store mapping object ids to `Citation` values.
   =================================================================== -/

/-- A heap of `Citation` objects addressed by object id. -/
abbrev CitationStore := Nat → Citation

/-- `create_citations(sources)` in the store model: sets
`citation.author = "Unknown"` and `citation.publication_date = "2024"` on
each referenced object in place, and returns the very list of references
it was given. -/
def createCitationsObjs (st : CitationStore) (ids : List Nat) : CitationStore × List Nat :=
  (ids.foldl (fun s i => Function.update s i (mutateCitation (s i))) st, ids)

/-- The sequential citation-task loop in the store model: `k` tasks, each
calling `create_citations(all_sources)` and extending the flat
`results["citations"]` list with the returned references. -/
def citationPhaseObjs (st : CitationStore) (allSourceIds : List Nat) :
    Nat → CitationStore × List Nat
  | 0 => (st, [])
  | k + 1 =>
    let p := createCitationsObjs st allSourceIds
    let q := citationPhaseObjs p.1 allSourceIds k
    (q.1, p.2 ++ q.2)

theorem mutateCitation_idem (c : Citation) :
    mutateCitation (mutateCitation c) = mutateCitation c := rfl

theorem foldl_update_getApp (ids : List Nat) : ∀ (st : CitationStore) (j : Nat),
    (ids.foldl (fun s i => Function.update s i (mutateCitation (s i))) st) j =
      if j ∈ ids then mutateCitation (st j) else st j := by
  induction ids with
  | nil =>
    intro st j
    simp
  | cons a rest ih =>
    intro st j
    rw [List.foldl_cons, ih]
    by_cases hja : j = a
    · subst hja
      by_cases hjr : j ∈ rest
      · rw [if_pos hjr, if_pos (List.mem_cons_self j rest), Function.update_same]
        exact mutateCitation_idem (st j)
      · rw [if_neg hjr, if_pos (List.mem_cons_self j rest), Function.update_same]
    · by_cases hjr : j ∈ rest
      · rw [if_pos hjr, if_pos (List.mem_cons_of_mem a hjr), Function.update_noteq hja]
      · rw [if_neg hjr, if_neg (by simp [hja, hjr]), Function.update_noteq hja]

theorem citationPhaseObjs_flat (ids : List Nat) (k : Nat) : ∀ st : CitationStore,
    (citationPhaseObjs st ids k).2 = (List.replicate k ids).flatten := by
  induction k with
  | zero => intro st; rfl
  | succ k ih =>
    intro st
    simp [citationPhaseObjs, createCitationsObjs, ih, List.replicate_succ]

/-- Claim C10: `create_citations` returns the very reference list it was
given; each referenced citation object is mutated in place to have author
"Unknown" and publication date "2024" while id, title, url, source type,
reliability and quality scores are unchanged; objects not passed are
untouched; and `k` citation tasks append the same object references to
the flat citations list once per task. -/
theorem C10_citation_mutation (st : CitationStore) (ids : List Nat) (k : Nat) :
    (createCitationsObjs st ids).2 = ids ∧
    (∀ i ∈ ids,
      ((createCitationsObjs st ids).1 i).author = some (str "Unknown") ∧
      ((createCitationsObjs st ids).1 i).publication_date = some (str "2024") ∧
      ((createCitationsObjs st ids).1 i).id = (st i).id ∧
      ((createCitationsObjs st ids).1 i).title = (st i).title ∧
      ((createCitationsObjs st ids).1 i).url = (st i).url ∧
      ((createCitationsObjs st ids).1 i).source_type = (st i).source_type ∧
      ((createCitationsObjs st ids).1 i).reliability_score = (st i).reliability_score ∧
      ((createCitationsObjs st ids).1 i).quality_score = (st i).quality_score) ∧
    (∀ j, j ∉ ids → (createCitationsObjs st ids).1 j = st j) ∧
    (citationPhaseObjs st ids k).2 = (List.replicate k ids).flatten := by
  refine ⟨rfl, ?_, ?_, citationPhaseObjs_flat ids k st⟩
  · intro i hi
    have hval : (createCitationsObjs st ids).1 i = mutateCitation (st i) := by
      have h := foldl_update_getApp ids st i
      rw [if_pos hi] at h
      exact h
    rw [hval]
    exact ⟨rfl, rfl, rfl, rfl, rfl, rfl, rfl, rfl⟩
  · intro j hj
    have h := foldl_update_getApp ids st j
    rwa [if_neg hj] at h

/-- The store used by the C10 witness. -/
def stW : CitationStore := fun _ => default

/-- Witness for C10: two object ids, two citation tasks; object 0 is
mutated, and the flat citations list repeats the same two references once
per task. -/
theorem C10_citation_mutation_witness :
    (0 ∈ ([0, 1] : List Nat)) ∧
    ((createCitationsObjs stW [0, 1]).1 0).author = some (str "Unknown") ∧
    ((createCitationsObjs stW [0, 1]).1 0).publication_date = some (str "2024") ∧
    (citationPhaseObjs stW [0, 1] 2).2 = [0, 1, 0, 1] := by
  have hm : 0 ∈ ([0, 1] : List Nat) := by decide
  obtain ⟨_, h2, _, h4⟩ := C10_citation_mutation stW [0, 1] 2
  obtain ⟨ha, hp, _⟩ := h2 0 hm
  exact ⟨hm, ha, hp, by rw [h4]; decide⟩

end DeepResearch
